import Mathlib

/-!
Verification model of the `uiauto` desktop-automation daemon (`src/main.go`).

The repository is a single Go file.  The model below embeds, function by
function, the hotkey-to-action dispatch engine: configuration loading
(`loadOrCreateConfig`), key registration (`bindKey`,
`bindWindowManagementKey`, the registration loops of `main`), the action
resolver (`openOrFocusApp`, `isAppRunning`, `startApp`), and the geometry
calculator (`centerWindow`, `strToInt`).

External effects are made explicit:
* the process table consulted by `pgrep -f` becomes a `List String` of
  process command lines; `pgrep`'s extended-regex match is modelled for
  literal patterns (the only ones the program uses) as substring search,
  so the query succeeds exactly when the pattern occurs in some command
  line — in particular the empty pattern matches every process;
* the X key-grab call (`keybind...Connect`) becomes a predicate
  `accept : String → Bool` on combo strings saying which registrations the
  X server accepts;
* spawning (`cmd.Start`), focusing (`wmctrl -x -a`) and moving
  (`wmctrl -r ... -e`) become constructors of result types recording which
  external command would be invoked with which arguments;
* `xrandr` output is an explicit `String` argument;
* a Go index-out-of-range panic is modelled by a dedicated `panicked`
  result constructor, produced exactly when the corresponding Go index
  expression would be out of bounds.

Go library primitives used by the program (`strings.Fields`,
`strings.Split`, `strings.Contains`, `strconv.Atoi`) are re-implemented
below with their documented semantics, since the claims depend on them.
-/

namespace Uiauto

/-- Model of Go `strings.Fields`, accumulator form: splits a character list
around maximal runs of whitespace, dropping empty fields.  `acc` holds the
characters of the word currently being read, in reverse. -/
def fieldsGo (acc : List Char) : List Char → List (List Char)
  | [] => if acc.isEmpty then [] else [acc.reverse]
  | c :: cs =>
    if c.isWhitespace then
      if acc.isEmpty then fieldsGo [] cs else acc.reverse :: fieldsGo [] cs
    else
      fieldsGo (c :: acc) cs

/-- Go `strings.Fields` on a string: the list of whitespace-separated
fields.  (Go splits on `unicode.IsSpace`; the program only ever meets ASCII
whitespace, covered by `Char.isWhitespace`.) -/
def fields (s : String) : List String :=
  (fieldsGo [] s.toList).map (fun w => String.mk w)

/-- Model of Go `strings.Split s sep` for a one-character separator:
splits at every occurrence of `sep`, keeping empty segments; the result is
always non-empty. -/
def splitOnChar (sep : Char) : List Char → List (List Char)
  | [] => [[]]
  | c :: cs =>
    let r := splitOnChar sep cs
    if c = sep then [] :: r else (c :: r.headI) :: r.tail

/-- Model of Go `strings.Contains hay needle` (restricted to the literal
patterns the program passes to `pgrep -f` and `strings.Contains`): does
`needle` occur as a contiguous substring of `hay`?  The empty needle occurs
in every string. -/
def hasSub (needle : List Char) : List Char → Bool
  | [] => needle.isEmpty
  | c :: cs => needle.isPrefixOf (c :: cs) || hasSub needle cs

/-- Numeric value of a list of decimal digit characters, most significant
first. -/
def digitsVal (l : List Char) : Nat :=
  l.foldl (fun a c => 10 * a + (c.toNat - 48)) 0

/-- Model of Go `strconv.Atoi`: an optional sign followed by at least one
digit parses to the signed value, anything else is an error (`none`).
(Go's Int64 range clamping is not modelled; every value the program parses
is a screen dimension, far below the 64-bit range.) -/
def atoi (s : String) : Option Int :=
  match s.toList with
  | [] => none
  | '+' :: ds =>
    if ds ≠ [] ∧ ds.all Char.isDigit then some (digitsVal ds : Int) else none
  | '-' :: ds =>
    if ds ≠ [] ∧ ds.all Char.isDigit then some (-(digitsVal ds : Int)) else none
  | ds =>
    if ds.all Char.isDigit then some (digitsVal ds : Int) else none

/-- Source `strToInt` (main.go:218-221): `strconv.Atoi`, discarding the
error, so any parse failure yields `0`. -/
def strToInt (s : String) : Int :=
  (atoi s).getD 0

/-- Source `AppConfig` (main.go:27-31): one `[app_select]` entry. -/
structure AppConfig where
  command : String
  processName : String
  windowClass : String
deriving DecidableEq

/-- Source `Config` (main.go:18-25).  The Go maps become association
lists; `appSelectPfx` and `windowManagePfx` model the source fields
`AppSelectPrefix` and `WindowManagePrefix`. -/
structure Config where
  appSelectPfx : String
  windowManagePfx : String
  appSelect : List (String × AppConfig)
  windowManage : List (String × String)

/-- Result of one `openOrFocusApp` call: exactly one of the two external
commands is issued — `wmctrl -x -a windowClass` (focus) or a spawned
process (launch). -/
inductive ResolveAction
  | focus (windowClass : String)
  | launch (command : String)
deriving DecidableEq

/-- Result of one key-registration attempt: either the combo was accepted
and is now bound, or the error was printed (diagnostic only, nothing
bound). -/
inductive BindOutcome
  | bound (combo : String)
  | reported (msg : String)
deriving DecidableEq

/-- Result of `startApp`: either a process is spawned with the given
executable and arguments, or the Go expression `parts[0]` was out of
bounds and the call panics. -/
inductive LaunchResult
  | started (exe : String) (args : List String)
  | panicked
deriving DecidableEq

/-- Result of the screen-dimension parsing loop of `centerWindow`
(main.go:138-149): the final values of `screenWidth`/`screenHeight` (both
stay `0` when no " connected" line exists), or a panic when an index
expression in the loop body is out of bounds. -/
inductive ScreenParse
  | dims (w h : Int)
  | panicked
deriving DecidableEq

/-- Overall result of one `centerWindow` call: the `wmctrl -r :ACTIVE: -e`
move with its rectangle, the "Error parsing screen dimensions." early
return, or a panic while parsing. -/
inductive CenterOutcome
  | moved (x y width height : Int)
  | parseError
  | panicked
deriving DecidableEq

/-- Target rectangle computed by `centerWindow` (main.go:156-162). -/
structure TargetRect where
  x : Int
  y : Int
  width : Int
  height : Int
deriving DecidableEq

/-- The centering arithmetic of `centerWindow` (main.go:156-162).
`int(float64(w) * 0.75)` is multiplication by the exactly representable
float `0.75 = 3/4` followed by truncation toward zero, i.e. `(3*w).tdiv 4`
(exact as long as `3*w` fits in a float64 mantissa, which every screen
dimension does); Go's integer `/` also truncates toward zero (`Int.tdiv`). -/
def computeCenteredRect (screenWidth screenHeight : Int) : TargetRect :=
  let targetWidth := (3 * screenWidth).tdiv 4
  let targetHeight := (3 * screenHeight).tdiv 4
  { x := (screenWidth - targetWidth).tdiv 2
    y := (screenHeight - targetHeight).tdiv 2
    width := targetWidth
    height := targetHeight }

/-- The line search of `centerWindow` (main.go:140-141): the first line of
the `xrandr` output containing `" connected"` (note the leading space,
which excludes "disconnected" lines). -/
def firstConnectedLine (output : String) : Option (List Char) :=
  (splitOnChar '\n' output.toList).find? (fun l => hasSub " connected".toList l)

/-- The parsing loop of `centerWindow` (main.go:138-149).  On the first
`" connected"` line it evaluates `strings.Fields(line)[2]`, then
`strings.Split(fields[2], "+")[0]`, then `strings.Split(resolution, "x")`
indexed at `0` and `1`.  The two indexings that can be out of bounds
(`fields[2]` and `dimensions[1]`) yield `panicked`; `[0]` of a
`strings.Split` result is always in bounds (`headI`).  With no matching
line, `screenWidth` and `screenHeight` keep their zero values. -/
def parseScreenDims (output : String) : ScreenParse :=
  match firstConnectedLine output with
  | none => .dims 0 0
  | some line =>
    match (fieldsGo [] line)[2]? with
    | none => .panicked
    | some f2 =>
      let resolution := (splitOnChar '+' f2).headI
      let dims := splitOnChar 'x' resolution
      match dims[1]? with
      | none => .panicked
      | some d1 => .dims (strToInt (String.mk dims.headI)) (strToInt (String.mk d1))

/-- Source `centerWindow` (main.go:129-169) as a function of the `xrandr`
output.  (The `xrandr` invocation failing is a separate early return not
reached in any claim; the function here models the behaviour once output
is available.)  A zero parsed width or height prints
"Error parsing screen dimensions." and returns before any move; otherwise
the `wmctrl` move is issued with the computed rectangle. -/
def centerWindow (xrandrOutput : String) : CenterOutcome :=
  match parseScreenDims xrandrOutput with
  | .panicked => .panicked
  | .dims w h =>
    if w = 0 ∨ h = 0 then .parseError
    else
      let r := computeCenteredRect w h
      .moved r.x r.y r.width r.height

/-- Source `isAppRunning` (main.go:179-183) against an explicit process
table: `pgrep -f processName` exits 0 with non-empty output exactly when
some process command line matches the pattern; for the literal patterns
used here, exactly when `processName` occurs as a substring of some
command line. -/
def isAppRunning (processName : String) (table : List String) : Bool :=
  table.any (fun cmdline => hasSub processName.toList cmdline.toList)

/-- Source `startApp` (main.go:193-200): split the command on whitespace,
spawn `parts[0]` with arguments `parts[1:]`.  When the command has no
fields, `parts[0]` is out of bounds. -/
def startApp (command : String) : LaunchResult :=
  match fields command with
  | [] => .panicked
  | exe :: args => .started exe args

/-- Source `openOrFocusApp` (main.go:171-177) against an explicit process
table. -/
def openOrFocusApp (table : List String) (app : AppConfig) : ResolveAction :=
  if isAppRunning app.processName table then .focus app.windowClass
  else .launch app.command

/-- Number of launch actions in a list of resolver results. -/
def launchCount (l : List ResolveAction) : Nat :=
  l.countP (fun a => match a with | .launch _ => true | _ => false)

/-- Source `bindKey` (main.go:107-115): attempt to grab the combo; on
rejection print "Error binding key for <command>: <err>" and bind
nothing. -/
def bindKey (accept : String → Bool) (keyCombo : String) (app : AppConfig) : BindOutcome :=
  if accept keyCombo then .bound keyCombo
  else .reported ("Error binding key for " ++ app.command)

/-- Source `bindWindowManagementKey` (main.go:117-127), registration part:
attempt to grab the combo; on rejection print
"Error binding window management key: <err>" and bind nothing.  (The
triggered callback is modelled separately by `windowManageTrigger`.) -/
def bindWindowManagementKey (accept : String → Bool) (keyCombo : String)
    (_action : String) : BindOutcome :=
  if accept keyCombo then .bound keyCombo
  else .reported "Error binding window management key"

/-- The key-press callback installed by `bindWindowManagementKey`
(main.go:119-122): run `centerWindow` when the bound action is `"center"`,
otherwise do nothing at all (`none`: no external command, no output). -/
def windowManageTrigger (action : String) (xrandrOutput : String) : Option CenterOutcome :=
  if action = "center" then some (centerWindow xrandrOutput) else none

/-- The app-select registration loop of `main` (main.go:64-66):
`bindKey` with combo `prefix ++ "-" ++ key` for every entry, in order. -/
def registerAll (accept : String → Bool) (pfx : String)
    (entries : List (String × AppConfig)) : List BindOutcome :=
  entries.map (fun p => bindKey accept (pfx ++ "-" ++ p.1) p.2)

/-- The window-management registration loop of `main` (main.go:70-72):
the map key is the action name and the value the key combo suffix. -/
def registerAllWM (accept : String → Bool) (pfx : String)
    (entries : List (String × String)) : List BindOutcome :=
  entries.map (fun p => bindWindowManagementKey accept (pfx ++ "-" ++ p.2) p.1)

/-- Source `loadOrCreateConfig` (main.go:80-105) with its I/O results as
explicit arguments: `os.UserHomeDir`, whether the config file already
exists (`os.Stat`), `os.MkdirAll`, `os.WriteFile`, and
`toml.DecodeFile`.  Every failure is returned as an error. -/
def loadOrCreateConfig (userHomeDir : Except String String) (configExists : Bool)
    (mkdirResult : Except String Unit) (writeResult : Except String Unit)
    (decodeResult : Except String Config) : Except String Config :=
  match userHomeDir with
  | .error e => .error e
  | .ok _ =>
    if configExists then decodeResult
    else
      match mkdirResult with
      | .error e => .error ("failed to create config directory: " ++ e)
      | .ok _ =>
        match writeResult with
        | .error e => .error ("failed to create default config file: " ++ e)
        | .ok _ => decodeResult

/-- Observable result of the startup goroutine of `main` (main.go:48-78)
together with the process fate.  `exited` records whether the startup path
terminates the process: it never does — on a config or X error the
goroutine merely `return`s, and on success it blocks in `xevent.Main`; in
every case the outer `systray.Run` keeps the process alive until the tray
Quit item is clicked. -/
structure MainResult where
  configError : Option String
  xError : Option String
  appBindings : List BindOutcome
  wmBindings : List BindOutcome
  exited : Bool
deriving DecidableEq

/-- The startup goroutine of `main` (main.go:49-75) with the config-load
result and the X-connection result as explicit arguments. -/
def mainStartup (loadResult : Except String Config) (xconn : Except String Unit)
    (accept : String → Bool) : MainResult :=
  match loadResult with
  | .error e =>
    { configError := some ("Error loading or creating config: " ++ e)
      xError := none, appBindings := [], wmBindings := [], exited := false }
  | .ok cfg =>
    match xconn with
    | .error e =>
      { configError := none
        xError := some ("Error connecting to X server: " ++ e)
        appBindings := [], wmBindings := [], exited := false }
    | .ok _ =>
      { configError := none, xError := none
        appBindings := registerAll accept cfg.appSelectPfx cfg.appSelect
        wmBindings := registerAllWM accept cfg.windowManagePfx cfg.windowManage
        exited := false }

/-- Containment and shape property of the centering computation, used to
state the Geometry Calculator contract. -/
def centeredOK (w h : Int) : Prop :=
  let r := computeCenteredRect w h
  r.width = 3 * w / 4 ∧ r.height = 3 * h / 4 ∧
  r.x = (w - r.width) / 2 ∧ r.y = (h - r.height) / 2 ∧
  0 ≤ r.x ∧ 0 ≤ r.y ∧ r.x + r.width ≤ w ∧ r.y + r.height ≤ h

/-- Shape a `" connected"` line must have for the parsing loop of
`centerWindow` to stay in bounds: at least three whitespace-separated
fields, and the part of the third field before the first `'+'` contains an
`'x'`. -/
def connectedLineWellFormed (line : List Char) : Prop :=
  3 ≤ (fieldsGo [] line).length ∧
  'x' ∈ (splitOnChar '+' ((fieldsGo [] line).getD 2 [])).headI

/-- A realistic `xrandr` output with one connected and one disconnected
display, used as the concrete example of the spec. -/
def exampleXrandr : String :=
  "Screen 0: minimum 320 x 200, current 1920 x 1080, maximum 16384 x 16384\neDP-1 connected 1920x1080+0+0 (normal left inverted right x axis y axis) 344mm x 194mm\n   1920x1080     60.01*+  59.97\nHDMI-1 disconnected (normal left inverted right x axis y axis)\n"

/-- The empty needle is a substring of every string (`strings.Contains(s, "")`
is true, and `pgrep -f ""` matches every process command line). -/
theorem hasSub_nil (l : List Char) : hasSub [] l = true := by
  cases l <;> rfl

/-- Once a word is being accumulated, `fieldsGo` returns at least that word. -/
theorem fieldsGo_ne_nil (cs : List Char) : ∀ acc, acc ≠ [] → fieldsGo acc cs ≠ [] := by
  induction cs with
  | nil => intro acc h; simp [fieldsGo, h]
  | cons c cs ih =>
    intro acc h
    by_cases hw : c.isWhitespace
    · have hne : acc.isEmpty = false := by simpa using h
      simp [fieldsGo, hw, hne]
    · simpa [fieldsGo, hw] using ih (c :: acc) (by simp)

/-- A character list has no whitespace-separated fields exactly when every
character is whitespace. -/
theorem fieldsGo_nil_iff (cs : List Char) :
    (fieldsGo [] cs = [] ↔ cs.all Char.isWhitespace = true) := by
  induction cs with
  | nil => simp [fieldsGo]
  | cons c cs ih =>
    by_cases hw : c.isWhitespace
    · simp [fieldsGo, hw, ih]
    · have h1 := fieldsGo_ne_nil cs [c] (by simp)
      simp [fieldsGo, hw, h1]

/-- Like Go's `strings.Split`, `splitOnChar` never returns an empty list. -/
theorem splitOnChar_ne_nil (sep : Char) (l : List Char) : splitOnChar sep l ≠ [] := by
  cases l with
  | nil => simp [splitOnChar]
  | cons c cs =>
    simp only [splitOnChar]
    split <;> simp

/-- `splitOnChar` produces one more segment than there are separator
occurrences. -/
theorem splitOnChar_length (sep : Char) (l : List Char) :
    (splitOnChar sep l).length = l.count sep + 1 := by
  induction l with
  | nil => simp [splitOnChar]
  | cons c cs ih =>
    by_cases hc : c = sep
    · simp [splitOnChar, hc, List.count_cons, ih]
    · simp [splitOnChar, hc, List.count_cons, ih, List.length_tail]

/-- C1: for every screen with width > 0 and height > 0 the centering
computation yields `targetWidth = floor(0.75 * width)`,
`targetHeight = floor(0.75 * height)`, `x = floor((width - targetWidth)/2)`,
`y = floor((height - targetHeight)/2)`, and the rectangle is fully
contained in the screen (`x ≥ 0`, `y ≥ 0`, `x + targetWidth ≤ width`,
`y + targetHeight ≤ height`); for screen (1920, 1080) the result is
width 1440, height 810, x 240, y 135. -/
theorem computeCenteredRect_contained (w h : Int) (hw : 0 < w) (hh : 0 < h) :
    centeredOK w h ∧
      computeCenteredRect 1920 1080 = ⟨240, 135, 1440, 810⟩ := by
  have h3w : (3 * w).tdiv 4 = 3 * w / 4 := Int.tdiv_eq_ediv (by omega) (by omega)
  have h3h : (3 * h).tdiv 4 = 3 * h / 4 := Int.tdiv_eq_ediv (by omega) (by omega)
  have hxw : (w - 3 * w / 4).tdiv 2 = (w - 3 * w / 4) / 2 :=
    Int.tdiv_eq_ediv (by omega) (by omega)
  have hyh : (h - 3 * h / 4).tdiv 2 = (h - 3 * h / 4) / 2 :=
    Int.tdiv_eq_ediv (by omega) (by omega)
  refine ⟨?_, by decide⟩
  unfold centeredOK computeCenteredRect
  simp only [h3w, h3h, hxw, hyh]
  refine ⟨trivial, trivial, trivial, trivial, ?_, ?_, ?_, ?_⟩ <;> omega

/-- Witness for C1: the theorem applied to the concrete screen
(1920, 1080). -/
theorem computeCenteredRect_contained_witness :
    (0 : Int) < 1920 ∧ (0 : Int) < 1080 ∧
      (centeredOK 1920 1080 ∧
        computeCenteredRect 1920 1080 = ⟨240, 135, 1440, 810⟩) :=
  ⟨by decide, by decide, computeCenteredRect_contained 1920 1080 (by decide) (by decide)⟩

/-- C2: whenever the process-table query reports a running match for the
binding's processName, `openOrFocusApp` invokes the window-focus primitive
with the binding's windowClass and never launches; whenever it reports no
match, it launches the command; two successive invocations where the
second process table reflects the first launch produce exactly one launch,
never two. -/
theorem openOrFocusApp_single_launch (t1 t2 : List String) (app : AppConfig)
    (h1 : isAppRunning app.processName t1 = false)
    (h2 : isAppRunning app.processName t2 = true) :
    openOrFocusApp t1 app = ResolveAction.launch app.command ∧
    openOrFocusApp t2 app = ResolveAction.focus app.windowClass ∧
    launchCount [openOrFocusApp t1 app, openOrFocusApp t2 app] = 1 := by
  have e1 : openOrFocusApp t1 app = ResolveAction.launch app.command := by
    simp [openOrFocusApp, h1]
  have e2 : openOrFocusApp t2 app = ResolveAction.focus app.windowClass := by
    simp [openOrFocusApp, h2]
  refine ⟨e1, e2, ?_⟩
  rw [e1, e2]
  rfl

/-- Witness for C2: the firefox binding, first with an empty process
table, then with a table containing the launched firefox process. -/
theorem openOrFocusApp_single_launch_witness :
    isAppRunning "firefox" [] = false ∧
    isAppRunning "firefox" ["/usr/lib/firefox/firefox"] = true ∧
    (openOrFocusApp [] ⟨"firefox", "firefox", "Firefox"⟩ = ResolveAction.launch "firefox" ∧
     openOrFocusApp ["/usr/lib/firefox/firefox"] ⟨"firefox", "firefox", "Firefox"⟩ =
       ResolveAction.focus "Firefox" ∧
     launchCount [openOrFocusApp [] ⟨"firefox", "firefox", "Firefox"⟩,
       openOrFocusApp ["/usr/lib/firefox/firefox"] ⟨"firefox", "firefox", "Firefox"⟩] = 1) :=
  ⟨by decide, by decide,
    openOrFocusApp_single_launch [] ["/usr/lib/firefox/firefox"]
      ⟨"firefox", "firefox", "Firefox"⟩ (by decide) (by decide)⟩

/-- C3 counterexample: with an empty `processName` the detection does NOT
report "not found" — the empty pattern matches every process command line,
so with any non-empty process table (here one process, "systemd")
`isAppRunning` reports running and `openOrFocusApp` takes the focus path,
not the launch path the claim requires. -/
theorem emptyProcessName_focuses_cex :
    isAppRunning "" ["systemd"] = true ∧
    openOrFocusApp ["systemd"] ⟨"foo", "", "Foo"⟩ = ResolveAction.focus "Foo" ∧
    openOrFocusApp ["systemd"] ⟨"foo", "", "Foo"⟩ ≠ ResolveAction.launch "foo" :=
  ⟨by decide, by decide, by decide⟩

/-- C3 amended: for a binding with empty `processName` the running-process
detection reports a match whenever the process table is non-empty (the
empty pattern is a substring of every command line), so `openOrFocusApp`
takes the focus path; only with an empty process table does it take the
launch path. -/
theorem isAppRunning_empty_matches_nonempty (table : List String) (app : AppConfig)
    (hname : app.processName = "") (htab : table ≠ []) :
    isAppRunning app.processName table = true ∧
    openOrFocusApp table app = ResolveAction.focus app.windowClass ∧
    openOrFocusApp [] app = ResolveAction.launch app.command := by
  cases table with
  | nil => exact absurd rfl htab
  | cons t ts =>
    have hrun : isAppRunning app.processName (t :: ts) = true := by
      simp [isAppRunning, hname, hasSub_nil]
    refine ⟨hrun, ?_, ?_⟩
    · simp [openOrFocusApp, hrun]
    · simp [openOrFocusApp, isAppRunning]

/-- Witness for the amended C3: a binding with empty processName against a
one-process table. -/
theorem isAppRunning_empty_matches_nonempty_witness :
    (⟨"foo", "", "Foo"⟩ : AppConfig).processName = "" ∧
    (["systemd"] : List String) ≠ [] ∧
    (isAppRunning (⟨"foo", "", "Foo"⟩ : AppConfig).processName ["systemd"] = true ∧
     openOrFocusApp ["systemd"] ⟨"foo", "", "Foo"⟩ = ResolveAction.focus "Foo" ∧
     openOrFocusApp [] ⟨"foo", "", "Foo"⟩ = ResolveAction.launch "foo") :=
  ⟨rfl, by decide,
    isAppRunning_empty_matches_nonempty ["systemd"] ⟨"foo", "", "Foo"⟩ rfl (by decide)⟩

/-- C4 counterexample: on a config-load failure the process does NOT exit.
The startup goroutine prints the error and returns, installing no
bindings, but `systray.Run` keeps the process alive (`exited = false`),
contradicting the claim that the process exits. -/
theorem configError_keeps_process_alive_cex :
    (mainStartup (Except.error "user home dir missing") (Except.ok ())
        (fun _ => true)).exited = false ∧
    (mainStartup (Except.error "user home dir missing") (Except.ok ())
        (fun _ => true)).appBindings = [] :=
  ⟨rfl, rfl⟩

/-- C4 amended: a configuration failure (missing home directory,
unreadable/uncreatable config path, malformed document — each propagated
as an error by `loadOrCreateConfig`) is fatal to the hotkey engine: the
error is reported and no key bindings are installed; the process itself
does not exit, though — the startup goroutine returns while the tray loop
keeps running. -/
theorem configError_fatal_to_bindings (e : String) (xc : Except String Unit)
    (accept : String → Bool) (cx : Bool) (mkd wrt : Except String Unit)
    (dr : Except String Config) :
    loadOrCreateConfig (Except.error e) cx mkd wrt dr = Except.error e ∧
    loadOrCreateConfig (Except.ok "/home/user") true mkd wrt (Except.error e) =
      Except.error e ∧
    (mainStartup (Except.error e) xc accept).configError =
      some ("Error loading or creating config: " ++ e) ∧
    (mainStartup (Except.error e) xc accept).appBindings = [] ∧
    (mainStartup (Except.error e) xc accept).wmBindings = [] ∧
    (mainStartup (Except.error e) xc accept).exited = false :=
  ⟨rfl, rfl, rfl, rfl, rfl, rfl⟩

/-- C5: screen-dimension discovery takes the first `" connected"` line,
extracts `<width>x<height>` and discards the offset after the first `'+'`,
so the example line `eDP-1 connected 1920x1080+0+0 ...` parses to
(1920, 1080) and the move uses the centered rectangle; when no connected
line exists, or the parsed width or height is zero, centering is abandoned
with the diagnostic early return — no panic and no window move. -/
theorem centerWindow_screen_parse (out : String) (w h : Int)
    (hp : parseScreenDims out = ScreenParse.dims w h) (hz : w = 0 ∨ h = 0) :
    centerWindow out = CenterOutcome.parseError ∧
    (∀ o : String, firstConnectedLine o = none →
      centerWindow o = CenterOutcome.parseError) ∧
    parseScreenDims exampleXrandr = ScreenParse.dims 1920 1080 ∧
    centerWindow exampleXrandr = CenterOutcome.moved 240 135 1440 810 := by
  refine ⟨?_, ?_, by decide, by decide⟩
  · unfold centerWindow
    rw [hp]
    simp [hz]
  · intro o ho
    unfold centerWindow parseScreenDims
    rw [ho]
    simp

/-- Witness for C5: output with no connected line parses to (0, 0) and the
centering is abandoned. -/
theorem centerWindow_screen_parse_witness :
    parseScreenDims "no displays here" = ScreenParse.dims 0 0 ∧
    ((0 : Int) = 0 ∨ (0 : Int) = 0) ∧
    (centerWindow "no displays here" = CenterOutcome.parseError ∧
     (∀ o : String, firstConnectedLine o = none →
       centerWindow o = CenterOutcome.parseError) ∧
     parseScreenDims exampleXrandr = ScreenParse.dims 1920 1080 ∧
     centerWindow exampleXrandr = CenterOutcome.moved 240 135 1440 810) :=
  ⟨by decide, Or.inl rfl,
    centerWindow_screen_parse "no displays here" 0 0 (by decide) (Or.inl rfl)⟩

/-- C6: on the launch path the command string is split on whitespace into
the executable (first token) and argument list (remaining tokens), with no
quoting or escaping: "kitty --hold" gives executable "kitty" and arguments
["--hold"], and a quoted argument is split right through the quotes. -/
theorem startApp_whitespace_split (command exe : String) (args : List String)
    (h : fields command = exe :: args) :
    startApp command = LaunchResult.started exe args ∧
    startApp "kitty --hold" = LaunchResult.started "kitty" ["--hold"] ∧
    startApp "sh -c \"echo hi\"" =
      LaunchResult.started "sh" ["-c", "\"echo", "hi\""] := by
  refine ⟨?_, by decide, by decide⟩
  unfold startApp
  rw [h]

/-- Witness for C6: the spec's example command "kitty --hold". -/
theorem startApp_whitespace_split_witness :
    fields "kitty --hold" = "kitty" :: ["--hold"] ∧
    (startApp "kitty --hold" = LaunchResult.started "kitty" ["--hold"] ∧
     startApp "kitty --hold" = LaunchResult.started "kitty" ["--hold"] ∧
     startApp "sh -c \"echo hi\"" =
       LaunchResult.started "sh" ["-c", "\"echo", "hi\""]) :=
  ⟨by decide, startApp_whitespace_split "kitty --hold" "kitty" ["--hold"] (by decide)⟩

/-- C7: when the binding mechanism rejects one combo, that binding is
reported and skipped, the registration loop continues unchanged, and every
remaining accepted binding is still installed. -/
theorem bindKey_reject_nonfatal (accept : String → Bool) (pfx k : String)
    (app : AppConfig) (pre post : List (String × AppConfig))
    (hrej : accept (pfx ++ "-" ++ k) = false)
    (hpost : ∀ p ∈ post, accept (pfx ++ "-" ++ p.1) = true) :
    registerAll accept pfx (pre ++ (k, app) :: post) =
      registerAll accept pfx pre ++
        BindOutcome.reported ("Error binding key for " ++ app.command) ::
          registerAll accept pfx post ∧
    ∀ p ∈ post, BindOutcome.bound (pfx ++ "-" ++ p.1) ∈ registerAll accept pfx post := by
  constructor
  · simp [registerAll, bindKey, hrej]
  · intro p hp
    have hb : bindKey accept (pfx ++ "-" ++ p.1) p.2 =
        BindOutcome.bound (pfx ++ "-" ++ p.1) := by
      simp [bindKey, hpost p hp]
    have hm := List.mem_map_of_mem
      (fun q : String × AppConfig => bindKey accept (pfx ++ "-" ++ q.1) q.2) hp
    simpa [registerAll, hb] using hm

/-- Witness for C7: the three default bindings with the "b" combo rejected by
the X server; "t" before it and "f" after it still install. -/
theorem bindKey_reject_nonfatal_witness :
    (fun c => !(c == "Control-Mod1-b")) ("Control-Mod1" ++ "-" ++ "b") = false ∧
    (∀ p ∈ [("f", (⟨"dolphin", "dolphin", "dolphin"⟩ : AppConfig))],
      (fun c => !(c == "Control-Mod1-b")) ("Control-Mod1" ++ "-" ++ p.1) = true) ∧
    (registerAll (fun c => !(c == "Control-Mod1-b")) "Control-Mod1"
        ([("t", ⟨"kitty", "kitty", "kitty"⟩)] ++
          ("b", ⟨"firefox", "firefox", "Firefox"⟩) ::
            [("f", ⟨"dolphin", "dolphin", "dolphin"⟩)]) =
      registerAll (fun c => !(c == "Control-Mod1-b")) "Control-Mod1"
          [("t", ⟨"kitty", "kitty", "kitty"⟩)] ++
        BindOutcome.reported ("Error binding key for " ++
            (⟨"firefox", "firefox", "Firefox"⟩ : AppConfig).command) ::
          registerAll (fun c => !(c == "Control-Mod1-b")) "Control-Mod1"
            [("f", ⟨"dolphin", "dolphin", "dolphin"⟩)] ∧
     ∀ p ∈ [("f", (⟨"dolphin", "dolphin", "dolphin"⟩ : AppConfig))],
       BindOutcome.bound ("Control-Mod1" ++ "-" ++ p.1) ∈
         registerAll (fun c => !(c == "Control-Mod1-b")) "Control-Mod1"
           [("f", ⟨"dolphin", "dolphin", "dolphin"⟩)]) :=
  ⟨by decide, by decide,
    bindKey_reject_nonfatal (fun c => !(c == "Control-Mod1-b")) "Control-Mod1" "b"
      ⟨"firefox", "firefox", "Firefox"⟩ [("t", ⟨"kitty", "kitty", "kitty"⟩)]
      [("f", ⟨"dolphin", "dolphin", "dolphin"⟩)] (by decide) (by decide)⟩

/-- C8: triggering a registered window-management binding dispatches to the
centering operation exactly for the action name "center"; every other
action name is a silent no-op (no operation and no diagnostic). -/
theorem windowManageTrigger_dispatch (action out : String) (h : action ≠ "center") :
    windowManageTrigger action out = none ∧
    windowManageTrigger "center" out = some (centerWindow out) := by
  constructor
  · simp [windowManageTrigger, h]
  · simp [windowManageTrigger]

/-- Witness for C8: the unrecognized action "maximize" is a no-op. -/
theorem windowManageTrigger_dispatch_witness :
    ("maximize" : String) ≠ "center" ∧
    (windowManageTrigger "maximize" "xrandr output" = none ∧
     windowManageTrigger "center" "xrandr output" =
       some (centerWindow "xrandr output")) :=
  ⟨by decide, windowManageTrigger_dispatch "maximize" "xrandr output" (by decide)⟩

/-- C9: `startApp`'s indexing of the first whitespace-separated field is in
bounds exactly for commands containing a non-whitespace character; an
empty or all-whitespace command makes `parts[0]` out of bounds — a runtime
panic. -/
theorem startApp_crash_iff (command : String) :
    (startApp command = LaunchResult.panicked ↔
      command.toList.all Char.isWhitespace = true) ∧
    ((∃ exe args, startApp command = LaunchResult.started exe args) ↔
      command.toList.any (fun c => !c.isWhitespace) = true) := by
  have hf : fields command = [] ↔ command.toList.all Char.isWhitespace = true := by
    unfold fields
    rw [List.map_eq_nil_iff]
    exact fieldsGo_nil_iff _
  have hiff : startApp command = LaunchResult.panicked ↔ fields command = [] := by
    cases hc : fields command with
    | nil => simp [startApp, hc]
    | cons e a => simp [startApp, hc]
  have h2 : (∃ exe args, startApp command = LaunchResult.started exe args) ↔
      fields command ≠ [] := by
    cases hc : fields command with
    | nil => simp [startApp, hc]
    | cons e a => simp [startApp, hc]
  have h3 : (command.toList.any (fun c => !c.isWhitespace) = true) ↔
      ¬ (command.toList.all Char.isWhitespace = true) := by
    simp [List.any_eq_true, List.all_eq_true]
  refine ⟨hiff.trans hf, h2.trans ?_⟩
  rw [h3]
  exact not_congr hf

/-- C10: given a first `" connected"` line, the parsing of `centerWindow`
panics exactly when the line is NOT well formed (at least three fields,
with an 'x' in the third field before the first '+'); a panic is what the
whole call produces then, instead of the reported-abandon path. -/
theorem centerWindow_crash_iff (out : String) (line : List Char)
    (hline : firstConnectedLine out = some line) :
    (parseScreenDims out = ScreenParse.panicked ↔ ¬ connectedLineWellFormed line) ∧
    (centerWindow out = CenterOutcome.panicked ↔
      parseScreenDims out = ScreenParse.panicked) := by
  constructor
  · unfold parseScreenDims connectedLineWellFormed
    rw [hline]
    cases h2f : (fieldsGo [] line)[2]? with
    | none =>
      have hlen : (fieldsGo [] line).length ≤ 2 := List.getElem?_eq_none_iff.mp h2f
      simp [h2f]
      intro h3
      omega
    | some f2 =>
      have hlt : 2 < (fieldsGo [] line).length := by
        rcases List.getElem?_eq_some_iff.mp h2f with ⟨hl, _⟩
        exact hl
      have h3 : 3 ≤ (fieldsGo [] line).length := hlt
      have hgd : (fieldsGo [] line).getD 2 [] = f2 := by
        rw [List.getD_eq_getElem?_getD, h2f]
        rfl
      rw [hgd]
      cases hd1 : (splitOnChar 'x' ((splitOnChar '+' f2).headI))[1]? with
      | none =>
        have hlen2 : (splitOnChar 'x' ((splitOnChar '+' f2).headI)).length ≤ 1 :=
          List.getElem?_eq_none_iff.mp hd1
        rw [splitOnChar_length] at hlen2
        have hmem : 'x' ∉ (splitOnChar '+' f2).headI := by
          intro hm
          have := List.count_pos_iff.mpr hm
          omega
        simp [h2f, hd1, h3, hmem]
      | some d1 =>
        have hlen2 : 1 < (splitOnChar 'x' ((splitOnChar '+' f2).headI)).length := by
          rcases List.getElem?_eq_some_iff.mp hd1 with ⟨hl, _⟩
          exact hl
        rw [splitOnChar_length] at hlen2
        have hmem : 'x' ∈ (splitOnChar '+' f2).headI := by
          have : 0 < ((splitOnChar '+' f2).headI).count 'x' := by omega
          exact List.count_pos_iff.mp this
        simp [h2f, hd1, h3, hmem]
  · cases hp : parseScreenDims out with
    | panicked => simp [centerWindow, hp]
    | dims w h =>
      simp only [centerWindow, hp]
      constructor
      · intro hc
        split at hc <;> simp_all
      · intro hc
        exact absurd hc (by simp)

/-- Witness for C10: the line "HDMI-1 connected" has only two fields, so
the parse panics. -/
theorem centerWindow_crash_iff_witness :
    firstConnectedLine "HDMI-1 connected\n" = some "HDMI-1 connected".toList ∧
    ((parseScreenDims "HDMI-1 connected\n" = ScreenParse.panicked ↔
        ¬ connectedLineWellFormed "HDMI-1 connected".toList) ∧
     (centerWindow "HDMI-1 connected\n" = CenterOutcome.panicked ↔
        parseScreenDims "HDMI-1 connected\n" = ScreenParse.panicked)) :=
  ⟨by decide,
    centerWindow_crash_iff "HDMI-1 connected\n" "HDMI-1 connected".toList (by decide)⟩

end Uiauto
